import Mathlib

/-!
Verification of the OTP (one-time-passcode) lifecycle and the surrounding
authentication controller flows of an Express-based authentication backend.

The OTP service itself (issue / verify / delete, file `service/otpService`)
is not part of the vendored sources; it is modelled from the specification
(sections 3 and 4.1).  The controller flows (`register`, `verifyUser`,
`verifyIdentity`, `login`, `resetPasswordOTPVerify`) and the sorting helper
(`SortingHelper.applySorting`) are embedded from the sources in
`app/authentication/authentication.controller.ts` and
`app/authentication/authentication.validators.ts`.

Machine integers do not occur: user ids and timestamps are modelled as `Nat`,
codes as `String`.  JavaScript string truthiness (`if (str)`) is modelled
explicitly by `jsTruthyStr`.
-/

namespace ExpressAuth

/-- OTP purposes, from the `TOKEN_LIST` enum (spec section 3: purposes are
`EMAIL_VERIFICATION`, `LOGIN_OTP`, `PASSWORD_RESET`). -/
inductive TokenType where
  | EMAIL_VERIFICATION
  | LOGIN_OTP
  | PASSWORD_RESET
deriving DecidableEq, Repr

/-- One persisted OTP record (spec section 3: userId, purpose, code,
expiresAt as an absolute timestamp). -/
structure OTPEntry where
  userId : Nat
  purpose : TokenType
  code : String
  expiresAt : Nat
deriving DecidableEq, Repr

/-- The OTP persistence layer, modelled as a list of records. -/
abbrev OTPStore := List OTPEntry

/-- Does the entry belong to the given user and purpose? -/
def OTPEntry.matchesKey (e : OTPEntry) (u : Nat) (p : TokenType) : Bool :=
  e.userId == u && e.purpose == p

/-- Number of records stored for a given (userId, purpose) key. -/
def keyCount (s : OTPStore) (u : Nat) (p : TokenType) : Nat :=
  s.countP (fun e => e.matchesKey u p)

/-- Modelled from the spec: `OTPService.saveOTPToDatabase` (spec section 4.1,
`issue`).  The file `service/otpService` is not among the vendored sources;
per the spec, issuance persists the freshly generated code with
`expiresAt = now + OTP_TTL`, replacing any existing record for the same
user and purpose, and returns the plaintext code to the caller.  The
generated code is passed in as `code` (the generator draws it at random;
its value is irrelevant to the lifecycle logic). -/
def saveOTPToDatabase (s : OTPStore) (u : Nat) (p : TokenType) (code : String)
    (now ttl : Nat) : String × OTPStore :=
  (code,
    { userId := u, purpose := p, code := code, expiresAt := now + ttl } ::
      s.filter (fun e => !(e.matchesKey u p)))

/-- Verification failures, from the spec error taxonomy (section 4.1 and 7). -/
inductive VerificationError where
  | OTPNotFound
  | OTPExpired
  | OTPMismatch
deriving DecidableEq, Repr

/-- Modelled from the spec: `OTPService.verifyOTPFromDatabase` (spec section
4.1, `verify`).  The file `service/otpService` is not among the vendored
sources; per the spec, verification checks, in order: record presence
(`OTPNotFound`), expiry with `now > expiresAt` (`OTPExpired`), and exact
string equality of the submitted code with the stored code
(`OTPMismatch`); otherwise it succeeds and leaves the record intact. -/
def verifyOTPFromDatabase (s : OTPStore) (u : Nat) (submittedCode : String)
    (p : TokenType) (now : Nat) : Except VerificationError Unit :=
  match s.find? (fun e => e.matchesKey u p) with
  | none => Except.error VerificationError.OTPNotFound
  | some e =>
      if now > e.expiresAt then Except.error VerificationError.OTPExpired
      else if submittedCode ≠ e.code then Except.error VerificationError.OTPMismatch
      else Except.ok ()

/-- Modelled from the spec: `OTPService.deleteOTPFromDatabase` (spec section
4.1, `delete`).  The file `service/otpService` is not among the vendored
sources; per the spec, deletion removes the stored record for the given
user and purpose and is idempotent: deleting a non-existent record is not
an error (the operation is total and returns the updated store). -/
def deleteOTPFromDatabase (s : OTPStore) (u : Nat) (p : TokenType) : OTPStore :=
  s.filter (fun e => !(e.matchesKey u p))

/-- The operations that mutate the OTP store. -/
inductive OTPOp where
  | save (u : Nat) (p : TokenType) (code : String) (now ttl : Nat)
  | del (u : Nat) (p : TokenType)

/-- Apply one mutating operation to the store. -/
def applyOp (s : OTPStore) : OTPOp → OTPStore
  | OTPOp.save u p code now ttl => (saveOTPToDatabase s u p code now ttl).2
  | OTPOp.del u p => deleteOTPFromDatabase s u p

/-- Run a sequence of mutating operations from a starting store. -/
def runOps (s : OTPStore) (ops : List OTPOp) : OTPStore := ops.foldl applyOp s

/-- A store is reachable when it arises from the empty store by some sequence
of issuance and deletion operations. -/
def Reachable (s : OTPStore) : Prop := ∃ ops, s = runOps [] ops

/-! ## Controller embedding

The flows below are embedded from
`app/authentication/authentication.controller.ts`.  External collaborators
(request parsing, user lookup, password hashing, session middleware, the
SMTP transport) are represented by boolean or optional parameters that
record the outcome the collaborator would produce; the control flow around
them is taken from the source. -/

/-- JavaScript truthiness of an optional string value: `undefined` and the
empty string are falsy, every other string is truthy.  Used for
`process.env.SHOW_OTP`, for `user.data.email` and for the `sortBy`
parameter, which the source tests with bare `if (value)` or `!value`. -/
def jsTruthyStr : Option String → Bool
  | none => false
  | some s => s != ""

/-- The `data` payload a success response may carry: the controller sends
`otp` (only in the `SHOW_OTP` branch) and `otpExpirationTime`. -/
structure ResponsePayload where
  otp : Option String
  otpExpirationTime : Option Nat
deriving DecidableEq, Repr

/-- A response produced by the `ApiController` response helpers. -/
inductive ApiResponse where
  | success (message : String) (payload : Option ResponsePayload)
  | bad (message : String)
deriving DecidableEq, Repr

/-- The observable result of a controller flow: either a response was sent,
or an error was thrown to the surrounding `asyncErrorHandler`. -/
inductive FlowResult where
  | response (r : ApiResponse)
  | thrown (msg : String)
deriving DecidableEq, Repr

/-- The user-facing message for each verification failure (spec section 7:
each lifecycle error is distinguishable by the caller). -/
def verificationErrorMessage : VerificationError → String
  | VerificationError.OTPNotFound => "OTP not found"
  | VerificationError.OTPExpired => "OTP expired"
  | VerificationError.OTPMismatch => "OTP mismatch"

/-- Outcome of the `register` flow: the OTP store after the flow, the
response sent, and whether a failed email send was caught and logged. -/
structure RegisterOutcome where
  store : OTPStore
  response : ApiResponse
  emailErrorLogged : Bool
deriving DecidableEq, Repr

/-- The `register` controller flow
(`authentication.controller.ts`, `register`), starting after request
parsing, duplicate checks and user creation have succeeded (their failures
return or throw before any OTP state is touched).  `generatedCode` is the
code the OTP generator produced, `emailSendFails` records whether
`sendEmailWithTemplate` throws, `showOtpEnv` is the raw
`process.env.SHOW_OTP` value and `otpResetExpiry` is
`Number(process.env.OTP_RESET_EXPIRY)`.  The send is attempted only when
`otp && user.data.email` is truthy; a throwing send is caught and logged
and the flow continues to the success response. -/
def register (s : OTPStore) (userId : Nat) (userEmail : Option String)
    (generatedCode : String) (now ttl : Nat) (emailSendFails : Bool)
    (showOtpEnv : Option String) (otpResetExpiry : Nat) : RegisterOutcome :=
  let saved := saveOTPToDatabase s userId TokenType.EMAIL_VERIFICATION generatedCode now ttl
  let otp := saved.1
  let attemptSend := (otp != "") && jsTruthyStr userEmail
  let logged := attemptSend && emailSendFails
  if jsTruthyStr showOtpEnv then
    { store := saved.2
      response := ApiResponse.success "User registered successfully"
        (some { otp := some otp, otpExpirationTime := some otpResetExpiry })
      emailErrorLogged := logged }
  else
    { store := saved.2
      response := ApiResponse.success "User registered successfully"
        (some { otp := none, otpExpirationTime := some otpResetExpiry })
      emailErrorLogged := logged }

/-- Outcome of the `verifyIdentity` flow. -/
structure IdentityOutcome where
  store : OTPStore
  result : FlowResult
  emailErrorLogged : Bool
deriving DecidableEq, Repr

/-- The `verifyIdentity` controller flow
(`authentication.controller.ts`, `verifyIdentity`), starting after request
parsing and user lookup.  The source checks the password first
(`passwordChecker` throws on failure), then rejects unverified users, then
issues a `LOGIN_OTP`; the email send sits in a try/catch whose catch only
logs, and the flow always ends in the success response once the OTP is
persisted. -/
def verifyIdentity (s : OTPStore) (userId : Nat) (userEmail : Option String)
    (passwordOk : Bool) (emailVerified : Bool) (generatedCode : String)
    (now ttl : Nat) (emailSendFails : Bool) (showOtpEnv : Option String)
    (otpResetExpiry : Nat) : IdentityOutcome :=
  if !passwordOk then
    { store := s, result := FlowResult.thrown "Invalid credentials", emailErrorLogged := false }
  else if !emailVerified then
    { store := s
      result := FlowResult.response
        (ApiResponse.bad "User is not verified. Please verify your email.")
      emailErrorLogged := false }
  else
    let saved := saveOTPToDatabase s userId TokenType.LOGIN_OTP generatedCode now ttl
    let otp := saved.1
    let attemptSend := (otp != "") && jsTruthyStr userEmail
    let logged := attemptSend && emailSendFails
    if jsTruthyStr showOtpEnv then
      { store := saved.2
        result := FlowResult.response (ApiResponse.success "Identity verified. OTP sent your email"
          (some { otp := some otp, otpExpirationTime := some otpResetExpiry }))
        emailErrorLogged := logged }
    else
      { store := saved.2
        result := FlowResult.response (ApiResponse.success "Identity verified. OTP sent your email"
          (some { otp := none, otpExpirationTime := some otpResetExpiry }))
        emailErrorLogged := logged }

/-- The `resetPasswordOTPVerify` controller flow
(`authentication.controller.ts`, `resetPasswordOTPVerify`), starting after
request parsing and user lookup.  It verifies the `PASSWORD_RESET` OTP and
sends the success response; it never calls the delete operation, so the
store it leaves behind is returned unchanged. -/
def resetPasswordOTPVerify (s : OTPStore) (userId : Nat) (otp : String)
    (now : Nat) : FlowResult × OTPStore :=
  match verifyOTPFromDatabase s userId otp TokenType.PASSWORD_RESET now with
  | Except.error e => (FlowResult.thrown (verificationErrorMessage e), s)
  | Except.ok _ =>
      (FlowResult.response (ApiResponse.success "OTP verified successfully" none), s)

/-- The `verifyUser` controller flow
(`authentication.controller.ts`, `verifyUser`), starting after request
parsing and user lookup.  It verifies the `EMAIL_VERIFICATION` OTP, then
explicitly deletes the record, then marks the account verified. -/
def verifyUser (s : OTPStore) (userId : Nat) (otp : String) (now : Nat) :
    FlowResult × OTPStore :=
  match verifyOTPFromDatabase s userId otp TokenType.EMAIL_VERIFICATION now with
  | Except.error e => (FlowResult.thrown (verificationErrorMessage e), s)
  | Except.ok _ =>
      (FlowResult.response (ApiResponse.success "User verified successfully" none),
        deleteOTPFromDatabase s userId TokenType.EMAIL_VERIFICATION)

/-- Observable events of the `login` flow, in the order they happen. -/
inductive LoginEvent where
  | otpDeleted
  | sessionLogin
deriving DecidableEq, Repr

/-- Outcome of the `login` flow: the store, the result, and the ordered list
of observable events (OTP deletion, `request.login` invocation). -/
structure LoginOutcome where
  store : OTPStore
  result : FlowResult
  events : List LoginEvent
deriving DecidableEq, Repr

/-- The `login` controller flow (`authentication.controller.ts`, `login`).
Steps in source order: parse the body (bad response on failure), look the
user up (`findUserByUsernameOrEmail` throws when no user exists), reject
users whose `emailVerified` is null, check the password (`passwordChecker`
throws on mismatch), verify the `LOGIN_OTP` code (throws the verification
error on failure), delete the `LOGIN_OTP` record, then call
`request.login`, whose callback sends "Login failed" on a session error
and "Login successful" otherwise. -/
def login (s : OTPStore) (parseOk : Bool) (userFound : Bool) (userId : Nat)
    (emailVerified : Bool) (passwordOk : Bool) (otp : String) (now : Nat)
    (sessionError : Bool) : LoginOutcome :=
  if !parseOk then
    { store := s, result := FlowResult.response (ApiResponse.bad "Invalid request body")
      events := [] }
  else if !userFound then
    { store := s, result := FlowResult.thrown "User not found", events := [] }
  else if !emailVerified then
    { store := s
      result := FlowResult.response
        (ApiResponse.bad "User is not verified. Please verify your email.")
      events := [] }
  else if !passwordOk then
    { store := s, result := FlowResult.thrown "Invalid credentials", events := [] }
  else
    match verifyOTPFromDatabase s userId otp TokenType.LOGIN_OTP now with
    | Except.error e =>
        { store := s, result := FlowResult.thrown (verificationErrorMessage e), events := [] }
    | Except.ok _ =>
        let s1 := deleteOTPFromDatabase s userId TokenType.LOGIN_OTP
        if sessionError then
          { store := s1, result := FlowResult.response (ApiResponse.bad "Login failed")
            events := [LoginEvent.otpDeleted, LoginEvent.sessionLogin] }
        else
          { store := s1
            result := FlowResult.response (ApiResponse.success "Login successful" none)
            events := [LoginEvent.otpDeleted, LoginEvent.sessionLogin] }

/-- The otp field of the data payload of a response, when one is present. -/
def responseOtp : ApiResponse → Option String
  | ApiResponse.success _ (some pl) => pl.otp
  | _ => none

/-! ## Sorting helper embedding

Embedded from the `SortingHelper` class in
`app/authentication/authentication.validators.ts`. -/

/-- A drizzle column object; the source recognises columns among the model
entries as the object-typed members that carry a `name` property. -/
structure Column where
  name : String
deriving DecidableEq, Repr

/-- One member of the drizzle model object: either a column, or some other
member (a method, a symbol, a primitive), which `getDynamicSortFields`
skips. -/
inductive ModelEntry where
  | column (c : Column)
  | other
deriving DecidableEq, Repr

/-- `getDynamicSortFields` (source lines 122-132): walk the entries of the
model object and keep those whose value is an object with a `name`
property, keyed by the entry key. -/
def getDynamicSortFields (model : List (String × ModelEntry)) :
    List (String × Column) :=
  model.filterMap (fun kv =>
    match kv.2 with
    | ModelEntry.column c => some (kv.1, c)
    | ModelEntry.other => none)

/-- The ordering directive `applySorting` produces (drizzle `asc`/`desc`
applied to a column). -/
inductive SQLOrder where
  | asc (c : Column)
  | desc (c : Column)
deriving DecidableEq, Repr

/-- The `SortingHelper` state after construction: the model id column and
the sortable-field allow-list built by `getDynamicSortFields`. -/
structure SortingHelper where
  id : Column
  sortableFields : List (String × Column)
deriving DecidableEq, Repr

/-- The `SortingHelper` constructor (source lines 117-120): store the model
and build `sortableFields` from it.  `idCol` is `this.model.id`. -/
def mkSortingHelper (idCol : Column) (model : List (String × ModelEntry)) :
    SortingHelper :=
  { id := idCol, sortableFields := getDynamicSortFields model }

/-- ASCII lower-casing of a string, character by character; models the
JavaScript `toLowerCase()` call applied to the `sortOrder` parameter
(query parameters are ASCII here). -/
def lowerAscii (s : String) : String := String.mk (s.data.map Char.toLower)

/-- `applySorting` (source lines 138-147).  `if (!sortBy)` is JavaScript
truthiness, so both an absent and an empty `sortBy` fall to the default;
the direction test is `sortOrder?.toLowerCase() === "asc"`, which is false
when `sortOrder` is absent. -/
def SortingHelper.applySorting (h : SortingHelper)
    (sortBy? sortOrder? : Option String) : Option SQLOrder :=
  match sortBy? with
  | none => some (SQLOrder.desc h.id)
  | some sb =>
      if sb == "" then some (SQLOrder.desc h.id)
      else
        match h.sortableFields.lookup sb with
        | none => some (SQLOrder.desc h.id)
        | some col =>
            if sortOrder?.map lowerAscii == some "asc" then some (SQLOrder.asc col)
            else some (SQLOrder.desc col)

/-! ## Helper lemmas -/

theorem matchesKey_mk_self (u : Nat) (p : TokenType) (c : String) (t : Nat) :
    (OTPEntry.mk u p c t).matchesKey u p = true := by
  simp [OTPEntry.matchesKey]

theorem matchesKey_mk_ne (u u' : Nat) (p p' : TokenType) (c : String) (t : Nat)
    (h : ¬(u = u' ∧ p = p')) : (OTPEntry.mk u p c t).matchesKey u' p' = false := by
  rcases not_and_or.mp h with h1 | h1 <;> simp [OTPEntry.matchesKey, h1]

theorem find?_filter_not_key (s : OTPStore) (u : Nat) (p : TokenType) :
    (s.filter (fun e => !(e.matchesKey u p))).find? (fun e => e.matchesKey u p) = none := by
  rw [List.find?_eq_none]
  intro e he
  have h2 := (List.mem_filter.mp he).2
  simp_all

theorem find?_of_find?_eq_none (s : OTPStore) (pred keep : OTPEntry → Bool)
    (h : s.find? pred = none) : (s.filter keep).find? pred = none := by
  rw [List.find?_eq_none] at h ⊢
  intro e he
  exact h e (List.mem_filter.mp he).1

theorem find?_saveOTP_self (s : OTPStore) (u : Nat) (p : TokenType) (c : String)
    (now ttl : Nat) :
    (saveOTPToDatabase s u p c now ttl).2.find? (fun e => e.matchesKey u p)
      = some (OTPEntry.mk u p c (now + ttl)) := by
  unfold saveOTPToDatabase
  exact List.find?_cons_of_pos _ (matchesKey_mk_self u p c (now + ttl))

theorem verify_after_delete (s : OTPStore) (u : Nat) (c : String) (p : TokenType)
    (t : Nat) :
    verifyOTPFromDatabase (deleteOTPFromDatabase s u p) u c p t
      = Except.error VerificationError.OTPNotFound := by
  unfold verifyOTPFromDatabase deleteOTPFromDatabase
  rw [find?_filter_not_key]

theorem verify_saveOTP_self (s : OTPStore) (u : Nat) (p : TokenType) (c : String)
    (now ttl t : Nat) (h : t ≤ now + ttl) :
    verifyOTPFromDatabase (saveOTPToDatabase s u p c now ttl).2 u c p t
      = Except.ok () := by
  unfold verifyOTPFromDatabase
  rw [find?_saveOTP_self]
  simp [Nat.not_lt.mpr h]

/-- Every key of the store holds at most one record. -/
def AtMostOnePerKey (s : OTPStore) : Prop := ∀ u p, keyCount s u p ≤ 1

theorem keyCount_saveOTP_self (s : OTPStore) (u : Nat) (p : TokenType) (c : String)
    (now ttl : Nat) : keyCount (saveOTPToDatabase s u p c now ttl).2 u p = 1 := by
  unfold keyCount saveOTPToDatabase
  rw [List.countP_cons]
  have h0 : (s.filter (fun e => !(e.matchesKey u p))).countP
      (fun e => e.matchesKey u p) = 0 := by
    rw [List.countP_eq_zero]
    intro e he
    have h2 := (List.mem_filter.mp he).2
    simp_all
  simp [h0, matchesKey_mk_self]

theorem countP_filter_le (s : OTPStore) (pred keep : OTPEntry → Bool) :
    (s.filter keep).countP pred ≤ s.countP pred := by
  induction s with
  | nil => simp
  | cons a t ih =>
      by_cases ha : keep a
      · rw [List.filter_cons_of_pos ha, List.countP_cons, List.countP_cons]
        exact Nat.add_le_add ih (le_refl _)
      · rw [List.filter_cons_of_neg (by simpa using ha), List.countP_cons]
        exact Nat.le_add_right_of_le ih

theorem keyCount_saveOTP_other (s : OTPStore) (u u' : Nat) (p p' : TokenType)
    (c : String) (now ttl : Nat) (h : ¬(u = u' ∧ p = p')) :
    keyCount (saveOTPToDatabase s u p c now ttl).2 u' p' ≤ keyCount s u' p' := by
  unfold keyCount saveOTPToDatabase
  rw [List.countP_cons]
  simp only [matchesKey_mk_ne u u' p p' c (now + ttl) h, if_false]
  simpa using countP_filter_le s _ _

theorem keyCount_delete_le (s : OTPStore) (u u' : Nat) (p p' : TokenType) :
    keyCount (deleteOTPFromDatabase s u p) u' p' ≤ keyCount s u' p' := by
  unfold keyCount deleteOTPFromDatabase
  exact countP_filter_le s _ _

theorem atMostOne_applyOp (s : OTPStore) (h : AtMostOnePerKey s) (op : OTPOp) :
    AtMostOnePerKey (applyOp s op) := by
  intro u' p'
  cases op with
  | save u p code now ttl =>
      by_cases hk : u = u' ∧ p = p'
      · rcases hk with ⟨rfl, rfl⟩
        simpa [applyOp] using Nat.le_of_eq (keyCount_saveOTP_self s u p code now ttl)
      · exact le_trans (keyCount_saveOTP_other s u u' p p' code now ttl hk) (h u' p')
  | del u p =>
      exact le_trans (keyCount_delete_le s u u' p p') (h u' p')

theorem atMostOne_runOps (s : OTPStore) (h : AtMostOnePerKey s) (ops : List OTPOp) :
    AtMostOnePerKey (runOps s ops) := by
  induction ops generalizing s with
  | nil => exact h
  | cons op rest ih => exact ih (applyOp s op) (atMostOne_applyOp s h op)

theorem atMostOne_empty : AtMostOnePerKey ([] : OTPStore) := by
  intro u p
  simp [keyCount]

theorem atMostOne_of_reachable (s : OTPStore) (h : Reachable s) :
    AtMostOnePerKey s := by
  rcases h with ⟨ops, rfl⟩
  exact atMostOne_runOps [] atMostOne_empty ops

/-! ## Claim theorems -/

/-- C1: for every (user, purpose) pair, the code returned by issuance is
exactly the code persisted for that user and purpose, and verifying that
returned code at any time up to the expiry timestamp succeeds. -/
theorem issueThenVerifySucceeds (s : OTPStore) (u : Nat) (p : TokenType)
    (code : String) (now ttl t : Nat) (h : t ≤ now + ttl) :
    (saveOTPToDatabase s u p code now ttl).2.find? (fun e => e.matchesKey u p)
        = some (OTPEntry.mk u p (saveOTPToDatabase s u p code now ttl).1 (now + ttl)) ∧
    verifyOTPFromDatabase (saveOTPToDatabase s u p code now ttl).2 u
        (saveOTPToDatabase s u p code now ttl).1 p t = Except.ok () :=
  ⟨find?_saveOTP_self s u p code now ttl, verify_saveOTP_self s u p code now ttl t h⟩

/-- Witness for C1: issuing code 123456 for user 1 and LOGIN_OTP at time 0
with TTL 5 and verifying the returned code at time 3 succeeds. -/
theorem issueThenVerifySucceeds_witness :
    (3 : Nat) ≤ 0 + 5 ∧
    verifyOTPFromDatabase
        (saveOTPToDatabase [] 1 TokenType.LOGIN_OTP "123456" 0 5).2 1
        (saveOTPToDatabase [] 1 TokenType.LOGIN_OTP "123456" 0 5).1
        TokenType.LOGIN_OTP 3 = Except.ok () :=
  ⟨by decide,
    (issueThenVerifySucceeds [] 1 TokenType.LOGIN_OTP "123456" 0 5 3 (by decide)).2⟩

/-- C2: verification performs its checks in a fixed order and returns the
first applicable error: OTPNotFound when no record exists for the
user and purpose, else OTPExpired when the current time is past expiresAt
(for every submitted code, matching or not), else OTPMismatch when the
submitted code differs from the stored code, else success. -/
theorem verifyCheckOrder (s : OTPStore) (u : Nat) (c : String) (p : TokenType)
    (now : Nat) :
    (s.find? (fun e => e.matchesKey u p) = none →
      verifyOTPFromDatabase s u c p now = Except.error VerificationError.OTPNotFound) ∧
    (∀ e, s.find? (fun e => e.matchesKey u p) = some e → e.expiresAt < now →
      verifyOTPFromDatabase s u c p now = Except.error VerificationError.OTPExpired) ∧
    (∀ e, s.find? (fun e => e.matchesKey u p) = some e → now ≤ e.expiresAt → c ≠ e.code →
      verifyOTPFromDatabase s u c p now = Except.error VerificationError.OTPMismatch) ∧
    (∀ e, s.find? (fun e => e.matchesKey u p) = some e → now ≤ e.expiresAt → c = e.code →
      verifyOTPFromDatabase s u c p now = Except.ok ()) := by
  refine ⟨fun h => ?_, fun e he hexp => ?_, fun e he hexp hne => ?_, fun e he hexp heq => ?_⟩
  · unfold verifyOTPFromDatabase
    rw [h]
  · unfold verifyOTPFromDatabase
    rw [he]
    simp [hexp]
  · unfold verifyOTPFromDatabase
    rw [he]
    simp [Nat.not_lt.mpr hexp, hne]
  · unfold verifyOTPFromDatabase
    rw [he]
    simp [Nat.not_lt.mpr hexp, heq]

/-- Witness for C2: all four verification outcomes at concrete stores; in
particular an expired record rejects with OTPExpired even though the
submitted code matches the stored code exactly. -/
theorem verifyCheckOrder_witness :
    verifyOTPFromDatabase [] 1 "111111" TokenType.LOGIN_OTP 0
      = Except.error VerificationError.OTPNotFound ∧
    verifyOTPFromDatabase [OTPEntry.mk 1 TokenType.LOGIN_OTP "111111" 10] 1 "111111"
        TokenType.LOGIN_OTP 11 = Except.error VerificationError.OTPExpired ∧
    verifyOTPFromDatabase [OTPEntry.mk 1 TokenType.LOGIN_OTP "111111" 10] 1 "222222"
        TokenType.LOGIN_OTP 9 = Except.error VerificationError.OTPMismatch ∧
    verifyOTPFromDatabase [OTPEntry.mk 1 TokenType.LOGIN_OTP "111111" 10] 1 "111111"
        TokenType.LOGIN_OTP 9 = Except.ok () :=
  ⟨(verifyCheckOrder [] 1 "111111" TokenType.LOGIN_OTP 0).1 (by decide),
   (verifyCheckOrder [OTPEntry.mk 1 TokenType.LOGIN_OTP "111111" 10] 1 "111111"
      TokenType.LOGIN_OTP 11).2.1 (OTPEntry.mk 1 TokenType.LOGIN_OTP "111111" 10)
      (by decide) (by decide),
   (verifyCheckOrder [OTPEntry.mk 1 TokenType.LOGIN_OTP "111111" 10] 1 "222222"
      TokenType.LOGIN_OTP 9).2.2.1 (OTPEntry.mk 1 TokenType.LOGIN_OTP "111111" 10)
      (by decide) (by decide) (by decide),
   (verifyCheckOrder [OTPEntry.mk 1 TokenType.LOGIN_OTP "111111" 10] 1 "111111"
      TokenType.LOGIN_OTP 9).2.2.2 (OTPEntry.mk 1 TokenType.LOGIN_OTP "111111" 10)
      (by decide) (by decide) (by decide)⟩

/-- C3: in every reachable store, at most one record exists per
(userId, purpose) key; and after a second issuance for the same user and
purpose, the first code fails verification with OTPMismatch (the model
stores one slot per key, so the old record is replaced rather than
deleted). -/
theorem atMostOneActiveAndReissueInvalidates (s : OTPStore) (hs : Reachable s)
    (u : Nat) (p : TokenType) (c1 c2 : String) (t1 ttl1 t2 ttl2 now : Nat)
    (hne : c1 ≠ c2) (hfresh : now ≤ t2 + ttl2) :
    keyCount s u p ≤ 1 ∧
    verifyOTPFromDatabase
        (saveOTPToDatabase (saveOTPToDatabase s u p c1 t1 ttl1).2 u p c2 t2 ttl2).2
        u c1 p now = Except.error VerificationError.OTPMismatch := by
  constructor
  · exact atMostOne_of_reachable s hs u p
  · unfold verifyOTPFromDatabase
    rw [find?_saveOTP_self]
    simp [Nat.not_lt.mpr hfresh, hne]

/-- Witness for C3: a store reached by one issuance satisfies the key bound,
and after issuing 222222 then 333333 for the same user and purpose, the
replaced code 222222 is rejected with OTPMismatch. -/
theorem atMostOneActiveAndReissueInvalidates_witness :
    keyCount (runOps [] [OTPOp.save 1 TokenType.LOGIN_OTP "111111" 0 5]) 1
        TokenType.LOGIN_OTP ≤ 1 ∧
    verifyOTPFromDatabase
        (saveOTPToDatabase
          (saveOTPToDatabase (runOps [] [OTPOp.save 1 TokenType.LOGIN_OTP "111111" 0 5])
            1 TokenType.LOGIN_OTP "222222" 1 5).2
          1 TokenType.LOGIN_OTP "333333" 2 5).2
        1 "222222" TokenType.LOGIN_OTP 3 = Except.error VerificationError.OTPMismatch :=
  atMostOneActiveAndReissueInvalidates
    (runOps [] [OTPOp.save 1 TokenType.LOGIN_OTP "111111" 0 5])
    ⟨[OTPOp.save 1 TokenType.LOGIN_OTP "111111" 0 5], rfl⟩
    1 TokenType.LOGIN_OTP "222222" "333333" 1 5 2 5 3 (by decide) (by decide)

/-- C4: purpose isolation: a code issued for purpose p1 does not verify
against a different purpose p2, even though the submitted string equals
the stored code; with per-purpose storage the failure is OTPNotFound
(no record exists under the other purpose). -/
theorem purposeIsolation (s : OTPStore) (u : Nat) (p1 p2 : TokenType) (c : String)
    (now ttl t : Nat) (hp : p1 ≠ p2)
    (hs : s.find? (fun e => e.matchesKey u p2) = none) :
    verifyOTPFromDatabase (saveOTPToDatabase s u p1 c now ttl).2 u c p2 t
      = Except.error VerificationError.OTPNotFound := by
  unfold verifyOTPFromDatabase saveOTPToDatabase
  rw [List.find?_cons_of_neg]
  · rw [find?_of_find?_eq_none s _ _ hs]
  · simp [matchesKey_mk_ne u u p1 p2 c (now + ttl) (fun hc => hp hc.2)]

/-- Witness for C4: a code issued for LOGIN_OTP is rejected with OTPNotFound
when verified against PASSWORD_RESET on a store with no PASSWORD_RESET
record. -/
theorem purposeIsolation_witness :
    TokenType.LOGIN_OTP ≠ TokenType.PASSWORD_RESET ∧
    verifyOTPFromDatabase
        (saveOTPToDatabase [] 1 TokenType.LOGIN_OTP "123456" 0 5).2 1 "123456"
        TokenType.PASSWORD_RESET 1 = Except.error VerificationError.OTPNotFound :=
  ⟨by decide,
    purposeIsolation [] 1 TokenType.LOGIN_OTP TokenType.PASSWORD_RESET "123456" 0 5 1
      (by decide) (by decide)⟩

/-- C5: successful verification leaves the stored record intact: the
resetPasswordOTPVerify flow, which verifies without deleting, returns the
store unchanged, the same code verifies again, and only an explicit
delete makes subsequent verification fail with OTPNotFound. -/
theorem verifySuccessLeavesRecordIntact (s : OTPStore) (u : Nat) (c : String)
    (now : Nat)
    (h : verifyOTPFromDatabase s u c TokenType.PASSWORD_RESET now = Except.ok ()) :
    (resetPasswordOTPVerify s u c now).2 = s ∧
    (resetPasswordOTPVerify s u c now).1
      = FlowResult.response (ApiResponse.success "OTP verified successfully" none) ∧
    (resetPasswordOTPVerify (resetPasswordOTPVerify s u c now).2 u c now).1
      = FlowResult.response (ApiResponse.success "OTP verified successfully" none) ∧
    verifyOTPFromDatabase (deleteOTPFromDatabase s u TokenType.PASSWORD_RESET) u c
      TokenType.PASSWORD_RESET now = Except.error VerificationError.OTPNotFound := by
  have h2 : resetPasswordOTPVerify s u c now
      = (FlowResult.response (ApiResponse.success "OTP verified successfully" none), s) := by
    unfold resetPasswordOTPVerify
    rw [h]
  exact ⟨by rw [h2], by rw [h2], by rw [h2, h2], verify_after_delete s u c _ now⟩

/-- Witness for C5: with a fresh PASSWORD_RESET record for code 999999,
verification succeeds, leaves the store unchanged and replays, and fails
with OTPNotFound only after the explicit delete. -/
theorem verifySuccessLeavesRecordIntact_witness :
    verifyOTPFromDatabase [OTPEntry.mk 1 TokenType.PASSWORD_RESET "999999" 10] 1
        "999999" TokenType.PASSWORD_RESET 5 = Except.ok () ∧
    (resetPasswordOTPVerify [OTPEntry.mk 1 TokenType.PASSWORD_RESET "999999" 10] 1
        "999999" 5).2 = [OTPEntry.mk 1 TokenType.PASSWORD_RESET "999999" 10] ∧
    verifyOTPFromDatabase
        (deleteOTPFromDatabase [OTPEntry.mk 1 TokenType.PASSWORD_RESET "999999" 10] 1
          TokenType.PASSWORD_RESET) 1 "999999" TokenType.PASSWORD_RESET 5
      = Except.error VerificationError.OTPNotFound :=
  ⟨by rfl,
    (verifySuccessLeavesRecordIntact [OTPEntry.mk 1 TokenType.PASSWORD_RESET "999999" 10]
      1 "999999" 5 (by rfl)).1,
    (verifySuccessLeavesRecordIntact [OTPEntry.mk 1 TokenType.PASSWORD_RESET "999999" 10]
      1 "999999" 5 (by rfl)).2.2.2⟩

/-- C6: deletion is idempotent and total: deleting twice equals deleting
once (so deleting when no record exists, as after the first delete, is not
an error), and after a delete no record remains for the key. -/
theorem deleteIdempotentAndTotal (s : OTPStore) (u : Nat) (p : TokenType) :
    deleteOTPFromDatabase (deleteOTPFromDatabase s u p) u p
      = deleteOTPFromDatabase s u p ∧
    (deleteOTPFromDatabase s u p).find? (fun e => e.matchesKey u p) = none := by
  constructor
  · unfold deleteOTPFromDatabase
    rw [List.filter_filter]
    simp
  · exact find?_filter_not_key s u p

/-- Closed form of the register flow: the store always holds the freshly
issued EMAIL_VERIFICATION record, the response is always the registration
success response (with the code echoed only under a truthy SHOW_OTP), and
an email error is logged exactly when a send was attempted and failed. -/
theorem register_eq (s : OTPStore) (userId : Nat) (userEmail : Option String)
    (code : String) (now ttl : Nat) (ef : Bool) (env : Option String) (x : Nat) :
    register s userId userEmail code now ttl ef env x =
      { store := (saveOTPToDatabase s userId TokenType.EMAIL_VERIFICATION code now ttl).2
        response := ApiResponse.success "User registered successfully"
          (some { otp := if jsTruthyStr env then some code else none
                  otpExpirationTime := some x })
        emailErrorLogged := ((code != "") && jsTruthyStr userEmail) && ef } := by
  unfold register
  cases h : jsTruthyStr env <;> simp [h, saveOTPToDatabase]

/-- C7: email delivery failure never affects the OTP lifecycle outcome: in
the register and verifyIdentity flows, a throwing send leaves the store
and the response identical to a successful send, the failure is logged
exactly when a send was attempted, and registration still ends in the
success response. -/
theorem emailFailureDoesNotAffectOutcome (s : OTPStore) (userId : Nat)
    (userEmail : Option String) (code : String) (now ttl : Nat)
    (env : Option String) (x : Nat) (passwordOk emailVerified : Bool) :
    (register s userId userEmail code now ttl true env x).store
      = (register s userId userEmail code now ttl false env x).store ∧
    (register s userId userEmail code now ttl true env x).response
      = (register s userId userEmail code now ttl false env x).response ∧
    (register s userId userEmail code now ttl true env x).emailErrorLogged
      = ((code != "") && jsTruthyStr userEmail) ∧
    (∃ pl, (register s userId userEmail code now ttl true env x).response
      = ApiResponse.success "User registered successfully" pl) ∧
    (verifyIdentity s userId userEmail passwordOk emailVerified code now ttl true env x).store
      = (verifyIdentity s userId userEmail passwordOk emailVerified code now ttl false env x).store ∧
    (verifyIdentity s userId userEmail passwordOk emailVerified code now ttl true env x).result
      = (verifyIdentity s userId userEmail passwordOk emailVerified code now ttl false env x).result := by
  refine ⟨by rw [register_eq, register_eq], by rw [register_eq, register_eq], ?_, ?_, ?_, ?_⟩
  · rw [register_eq]
    simp
  · rw [register_eq]
    exact ⟨_, rfl⟩
  · unfold verifyIdentity
    cases passwordOk <;> cases emailVerified <;> cases h : jsTruthyStr env <;> simp [h]
  · unfold verifyIdentity
    cases passwordOk <;> cases emailVerified <;> cases h : jsTruthyStr env <;> simp [h]

/-- Counterexample for C8: with the environment variable SHOW_OTP set to the
string false (a non-empty, hence truthy, string), the registration
response still carries the generated code, contradicting the claim that a
false SHOW_OTP yields a response with only the expiration time.  The
source guards the echo with a bare truthiness test of the raw
environment string. -/
theorem showOtpFalseStillEchoes :
    responseOtp (register [] 1 (some "user@example.com") "123456" 0 5 false
        (some "false") 5).response = some "123456" := by
  rfl

/-- C8 amended: the generated code appears in the registration success
response exactly when the SHOW_OTP environment variable is set to a
non-empty string (any value, including the string false); only an unset
or empty SHOW_OTP omits the code, leaving just the expiration time. -/
theorem showOtpEchoIffEnvTruthy (s : OTPStore) (userId : Nat)
    (userEmail : Option String) (code : String) (now ttl : Nat) (ef : Bool)
    (env : Option String) (x : Nat) :
    responseOtp (register s userId userEmail code now ttl ef env x).response
      = (if jsTruthyStr env then some code else none) := by
  rw [register_eq]
  cases jsTruthyStr env <;> simp [responseOtp]

/-- C9: applySorting defaults to descending by the model id column when
sortBy is absent or not in the allow-list built from the schema at
construction; otherwise it orders by the requested field, ascending
exactly when sortOrder lower-cases to asc and descending otherwise.  The
hypothesis records that the allow-list, being built from schema field
names, has no empty key (the source treats an empty sortBy as absent via
string truthiness). -/
theorem applySortingCharacterization (idCol : Column)
    (model : List (String × ModelEntry)) (sortBy? sortOrder? : Option String)
    (hkeys : (mkSortingHelper idCol model).sortableFields.lookup "" = none) :
    (mkSortingHelper idCol model).applySorting sortBy? sortOrder? =
      match sortBy? with
      | none => some (SQLOrder.desc idCol)
      | some sb =>
          match (mkSortingHelper idCol model).sortableFields.lookup sb with
          | none => some (SQLOrder.desc idCol)
          | some col =>
              if sortOrder?.map lowerAscii == some "asc" then some (SQLOrder.asc col)
              else some (SQLOrder.desc col) := by
  cases sortBy? with
  | none => rfl
  | some sb =>
      by_cases hsb : sb = ""
      · subst hsb
        simp only [mkSortingHelper] at hkeys ⊢
        simp [SortingHelper.applySorting, hkeys]
      · simp [SortingHelper.applySorting, mkSortingHelper, hsb]

/-- Witness for C9: on a model with columns id and name (and one non-column
member), requesting sortBy name with sortOrder ASC yields ascending order
on the name column. -/
theorem applySortingCharacterization_witness :
    (mkSortingHelper (Column.mk "id")
        [("id", ModelEntry.column (Column.mk "id")),
          ("name", ModelEntry.column (Column.mk "name")),
          ("helperFn", ModelEntry.other)]).sortableFields.lookup "" = none ∧
    (mkSortingHelper (Column.mk "id")
        [("id", ModelEntry.column (Column.mk "id")),
          ("name", ModelEntry.column (Column.mk "name")),
          ("helperFn", ModelEntry.other)]).applySorting (some "name") (some "ASC")
      = some (SQLOrder.asc (Column.mk "name")) :=
  ⟨by rfl, by
    rw [applySortingCharacterization (Column.mk "id")
      [("id", ModelEntry.column (Column.mk "id")),
        ("name", ModelEntry.column (Column.mk "name")),
        ("helperFn", ModelEntry.other)] (some "name") (some "ASC") (by rfl)]
    rfl⟩

/-- C10: in the login flow, request.login runs exactly when parsing, user
lookup, the emailVerified guard, the password check and the LOGIN_OTP
verification all succeed; when it runs, the LOGIN_OTP record has been
deleted first (the deletion event precedes the session event and the
final store lacks the record); and the Login successful response implies
the session step ran without a session error. -/
theorem loginSessionOnlyAfterAllGuards (s : OTPStore) (parseOk userFound : Bool)
    (userId : Nat) (emailVerified passwordOk : Bool) (otp : String) (now : Nat)
    (sessionError : Bool) :
    (LoginEvent.sessionLogin ∈
        (login s parseOk userFound userId emailVerified passwordOk otp now sessionError).events ↔
      (parseOk = true ∧ userFound = true ∧ emailVerified = true ∧ passwordOk = true ∧
        verifyOTPFromDatabase s userId otp TokenType.LOGIN_OTP now = Except.ok ())) ∧
    (LoginEvent.sessionLogin ∈
        (login s parseOk userFound userId emailVerified passwordOk otp now sessionError).events →
      (login s parseOk userFound userId emailVerified passwordOk otp now sessionError).events
          = [LoginEvent.otpDeleted, LoginEvent.sessionLogin] ∧
      (login s parseOk userFound userId emailVerified passwordOk otp now sessionError).store
          = deleteOTPFromDatabase s userId TokenType.LOGIN_OTP) ∧
    ((login s parseOk userFound userId emailVerified passwordOk otp now sessionError).result
        = FlowResult.response (ApiResponse.success "Login successful" none) →
      LoginEvent.sessionLogin ∈
        (login s parseOk userFound userId emailVerified passwordOk otp now sessionError).events ∧
      sessionError = false) := by
  cases parseOk <;> cases userFound <;> cases emailVerified <;> cases passwordOk <;>
    cases sessionError <;>
    rcases hv : verifyOTPFromDatabase s userId otp TokenType.LOGIN_OTP now with e | u <;>
    simp [login, hv]

/-- Witness for C10: with a fresh LOGIN_OTP record and every guard passing,
the session step runs and the event list shows the deletion happening
before the session login. -/
theorem loginSessionOnlyAfterAllGuards_witness :
    LoginEvent.sessionLogin ∈
      (login [OTPEntry.mk 1 TokenType.LOGIN_OTP "111111" 10]
        true true 1 true true "111111" 5 false).events ∧
    (login [OTPEntry.mk 1 TokenType.LOGIN_OTP "111111" 10]
        true true 1 true true "111111" 5 false).events
      = [LoginEvent.otpDeleted, LoginEvent.sessionLogin] :=
  have h := loginSessionOnlyAfterAllGuards
    [OTPEntry.mk 1 TokenType.LOGIN_OTP "111111" 10] true true 1 true true "111111" 5 false
  have hmem := h.1.mpr ⟨rfl, rfl, rfl, rfl, by rfl⟩
  ⟨hmem, (h.2.1 hmem).1⟩

end ExpressAuth
